import Mathlib

deriving instance DecidableEq for Except

/-!
Verification of the album/track data model, library merge, and track-matching
algorithm of the `apple-music-album-library-migrator` repository.

The Rust sources are shallowly embedded: structs become structures, `u8`
fields of the wire payloads become `Nat` (every representable payload value is
below 256; the one place the 8-bit width is observable, the `checked_add`
overflow of the expected-track-number counter in `try_from`, is modelled
explicitly by the `255` cap in `checkContiguous`), fallible functions return
`Except String` with the source's error messages, and Rust references into
`destination.tracks` are represented by the index of the referenced element.
-/

namespace catalog_album

/-- Wire enum `ContentRating` from `api_types/catalog_album.rs`. -/
inductive ContentRating where
  | explicit
deriving DecidableEq

/-- Wire struct `SongAttributes` from `api_types/catalog_album.rs`. -/
structure SongAttributes where
  artist_name : String
  content_rating : Option ContentRating
  disc_number : Nat
  isrc : String
  name : String
  release_date : String
  track_number : Nat
deriving DecidableEq

/-- Wire struct `Song` from `api_types/catalog_album.rs`. -/
structure Song where
  attributes : SongAttributes
  id : String
deriving DecidableEq

/-- Wire struct `AlbumAttributes` from `api_types/catalog_album.rs`. -/
structure AlbumAttributes where
  artist_name : String
  name : String
  release_date : String
  track_count : Nat
deriving DecidableEq

/-- Wire struct `AlbumRelationshipsTracks` from `api_types/catalog_album.rs`. -/
structure AlbumRelationshipsTracks where
  data : List Song
deriving DecidableEq

/-- Wire struct `AlbumRelationshipsWithTracks` from `api_types/catalog_album.rs`. -/
structure AlbumRelationshipsWithTracks where
  tracks : AlbumRelationshipsTracks
deriving DecidableEq

/-- Wire struct `Album` from `api_types/catalog_album.rs`. -/
structure AlbumEntry where
  id : String
  attributes : AlbumAttributes
  relationships : AlbumRelationshipsWithTracks
deriving DecidableEq

/-- Wire struct `Root` from `api_types/catalog_album.rs`. -/
structure Root where
  data : List AlbumEntry
deriving DecidableEq

end catalog_album

namespace library_album

/-- Wire struct `LibrarySongPlayParams` from `api_types/library_album.rs`. -/
structure LibrarySongPlayParams where
  catalog_id : String
deriving DecidableEq

/-- Wire struct `LibrarySongAttributes` from `api_types/library_album.rs`. -/
structure LibrarySongAttributes where
  play_params : LibrarySongPlayParams
deriving DecidableEq

/-- Wire struct `LibrarySong` from `api_types/library_album.rs`. -/
structure LibrarySong where
  attributes : LibrarySongAttributes
  id : String
deriving DecidableEq

/-- Wire struct `LibraryAlbumCatalog` from `api_types/library_album.rs`. -/
structure LibraryAlbumCatalog where
  id : String
deriving DecidableEq

/-- Wire struct `LibraryAlbumRelationshipsCatalog` from `api_types/library_album.rs`. -/
structure LibraryAlbumRelationshipsCatalog where
  data : List LibraryAlbumCatalog
deriving DecidableEq

/-- Wire struct `LibraryAlbumRelationshipsTracks` from `api_types/library_album.rs`. -/
structure LibraryAlbumRelationshipsTracks where
  data : List LibrarySong
deriving DecidableEq

/-- Wire struct `LibraryAlbumRelationshipsWithTracksCatalog` from `api_types/library_album.rs`. -/
structure LibraryAlbumRelationshipsWithTracksCatalog where
  catalog : LibraryAlbumRelationshipsCatalog
  tracks : LibraryAlbumRelationshipsTracks
deriving DecidableEq

/-- Wire struct `LibraryAlbum` from `api_types/library_album.rs`. -/
structure LibraryAlbum where
  id : String
  relationships : LibraryAlbumRelationshipsWithTracksCatalog
deriving DecidableEq

/-- Wire struct `Root` from `api_types/library_album.rs`. -/
structure Root where
  data : List LibraryAlbum
deriving DecidableEq

end library_album

/-- `Album<Track>` from `custom_types/mod.rs`. -/
structure Album (Track : Type) where
  catalog_id : String
  name : String
  artist_name : String
  release_date : String
  tracks : List Track
deriving DecidableEq

/-- `TrackNoLibrary` from `custom_types/mod.rs`. -/
structure TrackNoLibrary where
  catalog_id : String
  name : String
  artist_name : String
  is_explicit : Bool
  isrc : String
  release_date : String
deriving DecidableEq

/-- `TrackWithLibrary` from `custom_types/mod.rs`. -/
structure TrackWithLibrary where
  catalog_id : String
  name : String
  artist_name : String
  is_explicit : Bool
  isrc : String
  release_date : String
  library_id : Option String
deriving DecidableEq

/-- The `HashSet`-insert loops of the sources error when an element repeats;
a list passes such a loop exactly when every element is new when reached.
`allDistinct` is that check (head-vs-rest instead of element-vs-seen; both
compute pairwise distinctness). -/
def allDistinct {α : Type} [BEq α] : List α → Bool
  | [] => true
  | x :: xs => !(xs.contains x) && allDistinct xs

/-- `HashSet::is_disjoint` on the two catalog-ID sets of `match_tracks`. -/
def listsDisjoint {α : Type} [BEq α] (l1 l2 : List α) : Bool :=
  l1.all (fun x => !(l2.contains x))

/-- The `(disc_number, track_number, TrackNoLibrary)` triples collected by
`try_from` in `custom_types/mod.rs` (lines 52-71). -/
def mkTriples (album : catalog_album.AlbumEntry) : List (Nat × Nat × TrackNoLibrary) :=
  album.relationships.tracks.data.map fun song =>
    (song.attributes.disc_number, song.attributes.track_number,
      { catalog_id := song.id
        name := song.attributes.name
        artist_name := song.attributes.artist_name
        is_explicit := song.attributes.content_rating.isSome
        isrc := song.attributes.isrc
        release_date := song.attributes.release_date })

/-- Lexicographic `≤` on the `(disc_number, track_number)` key, the order used
by `tracks.sort_by_key(|(disc, num, _)| (*disc, *num))`. -/
def trackLe (a b : Nat × Nat × TrackNoLibrary) : Prop :=
  a.1 < b.1 ∨ (a.1 = b.1 ∧ a.2.1 ≤ b.2.1)

/-- Strict lexicographic order on the `(disc_number, track_number)` key. -/
def trackLt (a b : Nat × Nat × TrackNoLibrary) : Prop :=
  a.1 < b.1 ∨ (a.1 = b.1 ∧ a.2.1 < b.2.1)

instance : DecidableRel trackLe := fun a b => by
  unfold trackLe; infer_instance

instance : DecidableRel trackLt := fun a b => by
  unfold trackLt; infer_instance

instance : IsTotal (Nat × Nat × TrackNoLibrary) trackLe where
  total a b := by
    unfold trackLe
    rcases Nat.lt_trichotomy a.1 b.1 with h | h | h
    · exact Or.inl (Or.inl h)
    · rcases Nat.le_total a.2.1 b.2.1 with h2 | h2
      · exact Or.inl (Or.inr ⟨h, h2⟩)
      · exact Or.inr (Or.inr ⟨h.symm, h2⟩)
    · exact Or.inr (Or.inl h)

instance : IsTrans (Nat × Nat × TrackNoLibrary) trackLe where
  trans a b c hab hbc := by
    unfold trackLe at hab hbc ⊢
    rcases hab with h1 | ⟨h1, h1n⟩ <;> rcases hbc with h2 | ⟨h2, h2n⟩
    · exact Or.inl (Nat.lt_trans h1 h2)
    · exact Or.inl (h2 ▸ h1)
    · exact Or.inl (h1 ▸ h2)
    · exact Or.inr ⟨h1.trans h2, Nat.le_trans h1n h2n⟩

instance : IsTrans (Nat × Nat × TrackNoLibrary) trackLt where
  trans a b c hab hbc := by
    unfold trackLt at hab hbc ⊢
    rcases hab with h1 | ⟨h1, h1n⟩ <;> rcases hbc with h2 | ⟨h2, h2n⟩
    · exact Or.inl (Nat.lt_trans h1 h2)
    · exact Or.inl (h2 ▸ h1)
    · exact Or.inl (h1 ▸ h2)
    · exact Or.inr ⟨h1.trans h2, Nat.lt_trans h1n h2n⟩

/-- The stable sort-by-key of `try_from`. `insertionSort` is stable, like
Rust's `sort_by_key`; on success the keys are pairwise distinct anyway, so the
result is independent of the tie-breaking of the sorting algorithm. -/
def sortTracks (l : List (Nat × Nat × TrackNoLibrary)) : List (Nat × Nat × TrackNoLibrary) :=
  List.insertionSort trackLe l

/-- The contiguity walk of `try_from` (lines 77-91 of `custom_types/mod.rs`):
per disc, track numbers must be `1, 2, ...` in order; the expected counter is
a `u8` whose `checked_add` fails once it would pass 255. -/
def checkContiguous : Option Nat → Nat → List (Nat × Nat × TrackNoLibrary) → Bool
  | _, _, [] => true
  | curr, expected, t :: rest =>
    let e := if curr = some t.1 then expected else 1
    t.2.1 == e && e != 255 && checkContiguous (some t.1) (e + 1) rest

/-- The track numbers carried by the tracks of disc `d`, in list order. -/
def discNums (d : Nat) (l : List (Nat × Nat × TrackNoLibrary)) : List Nat :=
  (l.filter (fun t => t.1 == d)).map (fun t => t.2.1)

/-- `TryFrom<api_types::catalog_album::Root> for Album<TrackNoLibrary>`
(`custom_types/mod.rs`, lines 45-106), with `?`-style early returns written as
explicit matches. -/
def try_from (value : catalog_album.Root) : Except String (Album TrackNoLibrary) :=
  match value.data with
  | [album] =>
    let tracks := mkTriples album
    if tracks.length ≠ album.attributes.track_count then
      Except.error ("track count mismatch")
    else
      let sorted := sortTracks tracks
      if !(checkContiguous none 1 sorted) then
        Except.error ("non-contiguous track numbers")
      else if !(allDistinct (sorted.map (fun t => t.2.2.catalog_id))) then
        Except.error ("duplicate track catalog ID")
      else
        Except.ok
          { catalog_id := album.id
            name := album.attributes.name
            artist_name := album.attributes.artist_name
            release_date := album.attributes.release_date
            tracks := sorted.map (fun t => t.2.2) }
  | _ => Except.error ("expected exactly one album")

/-- `TrackNoLibrary::with_library_id` (`custom_types/mod.rs`, lines 108-120). -/
def TrackNoLibrary.with_library_id (t : TrackNoLibrary) (library_id : Option String) :
    TrackWithLibrary :=
  { catalog_id := t.catalog_id
    name := t.name
    artist_name := t.artist_name
    is_explicit := t.is_explicit
    isrc := t.isrc
    release_date := t.release_date
    library_id := library_id }

/-- The catalog-to-library map-building loop of `with_library_info`
(lines 132-138 of `custom_types/mod.rs`), as an association list built in
iteration order, erroring on a duplicate catalog ID or on a catalog ID absent
from the album's own tracks. -/
def buildCatalogToLibrary (albumTracks : List TrackNoLibrary) :
    List library_album.LibrarySong → List (String × String) →
    Except String (List (String × String))
  | [], acc => Except.ok acc
  | song :: rest, acc =>
    let cid := song.attributes.play_params.catalog_id
    if (acc.lookup cid).isSome then
      Except.error ("duplicate catalog ID in library response")
    else if !(albumTracks.any (fun t => t.catalog_id == cid)) then
      Except.error ("library response references a track not in the album")
    else
      buildCatalogToLibrary albumTracks rest (acc ++ [(cid, song.id)])

/-- `Album::<TrackNoLibrary>::with_library_info` (`custom_types/mod.rs`,
lines 122-161). -/
def with_library_info (album : Album TrackNoLibrary) (library_response : library_album.Root) :
    Except String (Album TrackWithLibrary) :=
  match library_response.data with
  | [library_album] =>
    match library_album.relationships.catalog.data with
    | [catalog] =>
      if catalog.id ≠ album.catalog_id then
        Except.error ("library album references a different catalog album")
      else
        match buildCatalogToLibrary album.tracks library_album.relationships.tracks.data [] with
        | Except.error e => Except.error e
        | Except.ok catalog_to_library =>
          if catalog_to_library.isEmpty then
            Except.error ("empty catalog-to-library mapping")
          else
            Except.ok
              { catalog_id := album.catalog_id
                name := album.name
                artist_name := album.artist_name
                release_date := album.release_date
                tracks := album.tracks.map fun track =>
                  track.with_library_id (catalog_to_library.lookup track.catalog_id) }
    | _ => Except.error ("expected exactly one catalog entry")
  | _ => Except.error ("expected exactly one library album")

/-- First-match lookup of a catalog track ID in the library response's song
list, returning the library ID; on the success path of `with_library_info`
(no duplicate catalog IDs) this is exactly the built mapping. -/
def libraryLookup (songs : List library_album.LibrarySong) (cid : String) : Option String :=
  (songs.find? (fun s => s.attributes.play_params.catalog_id == cid)).map (fun s => s.id)

/-- `TrackMatchResult` from `matching.rs`. The Rust value holds a reference
`&destination.tracks[destination_index]`; we keep the index, which identifies
the referenced destination track. -/
inductive TrackMatchResult where
  | Match (source : TrackWithLibrary) (destinationIndex : Nat)
  | NoMatch (source : TrackWithLibrary)
deriving DecidableEq

/-- The source track a verdict reports on. -/
def TrackMatchResult.source : TrackMatchResult → TrackWithLibrary
  | .Match s _ => s
  | .NoMatch s => s

/-- The destination index of a verdict, if it is a match. -/
def TrackMatchResult.destIdx : TrackMatchResult → Option Nat
  | .Match _ j => some j
  | .NoMatch _ => none

/-- All destination indices claimed by a verdict sequence. -/
def matchedIndices (results : List TrackMatchResult) : List Nat :=
  results.filterMap TrackMatchResult.destIdx

/-- The `isrc_map` lookup of `match_tracks`: the index of the destination
track carrying the given ISRC. The `HashMap` is only consulted after the
duplicate-ISRC checks, under which first match and the collected map agree. -/
def isrcIdx (isrc : String) : List TrackNoLibrary → Option Nat
  | [] => none
  | t :: ts => if t.isrc == isrc then some 0 else (isrcIdx isrc ts).map (fun j => j + 1)

/-- The `name_artist_map` lookup of `match_tracks`: indices of the destination
tracks with the given `(name, artist_name)` pair, in increasing order, as
produced by the `or_default().push(i)` loop. -/
def naIndices (n a : String) : List TrackNoLibrary → List Nat
  | [] => []
  | t :: ts =>
    if t.name == n && t.artist_name == a then
      0 :: (naIndices n a ts).map (fun j => j + 1)
    else
      (naIndices n a ts).map (fun j => j + 1)

/-- The per-source-track matching loop of `match_tracks` (lines 93-131 of
`matching.rs`), threading the `used_destinations` set. -/
def matchLoop (ds : List TrackNoLibrary) :
    List TrackWithLibrary → List Nat → Except String (List TrackMatchResult)
  | [], _ => Except.ok []
  | s :: rest, used =>
    match isrcIdx s.isrc ds with
    | some j =>
      if used.contains j then
        Except.error ("used_destinations.insert(destination_index)")
      else
        match matchLoop ds rest (j :: used) with
        | Except.ok rs => Except.ok (TrackMatchResult.Match s j :: rs)
        | Except.error e => Except.error e
    | none =>
      match naIndices s.name s.artist_name ds with
      | [] =>
        match matchLoop ds rest used with
        | Except.ok rs => Except.ok (TrackMatchResult.NoMatch s :: rs)
        | Except.error e => Except.error e
      | [j] =>
        match matchLoop ds rest used with
        | Except.ok rs => Except.ok (TrackMatchResult.Match s j :: rs)
        | Except.error e => Except.error e
      | _ :: _ :: _ => Except.error ("ambiguous name and artist match")

/-- The verdict `match_tracks` produces for one source track whenever it does
not abort: ISRC first, then the unique name/artist candidate, else no match. -/
def verdictFor (ds : List TrackNoLibrary) (s : TrackWithLibrary) : TrackMatchResult :=
  match isrcIdx s.isrc ds with
  | some j => TrackMatchResult.Match s j
  | none =>
    match naIndices s.name s.artist_name ds with
    | [j] => TrackMatchResult.Match s j
    | _ => TrackMatchResult.NoMatch s

/-- `match_tracks` (`matching.rs`, lines 18-134): the precondition `ensure!`
chain followed by the matching loop. -/
def match_tracks (source : Album TrackWithLibrary) (destination : Album TrackNoLibrary) :
    Except String (List TrackMatchResult) :=
  if source.catalog_id == destination.catalog_id then
    Except.error ("source and destination albums have the same catalog ID")
  else if source.tracks.isEmpty then
    Except.error ("source album has no tracks")
  else if destination.tracks.isEmpty then
    Except.error ("destination album has no tracks")
  else if !(allDistinct (source.tracks.map (fun t => t.catalog_id))) then
    Except.error ("duplicate catalog ID in source")
  else if !(allDistinct (destination.tracks.map (fun t => t.catalog_id))) then
    Except.error ("duplicate catalog ID in destination")
  else if !(listsDisjoint (source.tracks.map (fun t => t.catalog_id))
      (destination.tracks.map (fun t => t.catalog_id))) then
    Except.error ("source and destination albums have overlapping track catalog IDs")
  else if !(allDistinct (source.tracks.map (fun t => t.isrc))) then
    Except.error ("duplicate ISRC in source")
  else if !(allDistinct (destination.tracks.map (fun t => t.isrc))) then
    Except.error ("duplicate ISRC in destination")
  else
    matchLoop destination.tracks source.tracks []

/-! ### Concrete inputs used by witnesses and counterexamples -/

/-- Source track 1 of the simple matching example (`test_match_tracks_simple`). -/
def exSrcTrack1 : TrackWithLibrary :=
  { catalog_id := "1", name := "Song 1", artist_name := "Artist", is_explicit := false,
    isrc := "ISRC1", release_date := "2020-01-01", library_id := none }

/-- Source track 2 of the simple matching example. -/
def exSrcTrack2 : TrackWithLibrary :=
  { catalog_id := "2", name := "Song 2", artist_name := "Artist", is_explicit := false,
    isrc := "ISRC2", release_date := "2020-01-01", library_id := some ("i.2") }

/-- Destination track 1 of the simple matching example. -/
def exDstTrack1 : TrackNoLibrary :=
  { catalog_id := "3", name := "Song 1", artist_name := "Artist", is_explicit := false,
    isrc := "ISRC1", release_date := "2020-01-01" }

/-- Destination track 2 of the simple matching example. -/
def exDstTrack2 : TrackNoLibrary :=
  { catalog_id := "4", name := "Song 2", artist_name := "Artist", is_explicit := false,
    isrc := "ISRC2", release_date := "2020-01-01" }

/-- Source album of the simple matching example. -/
def exSource : Album TrackWithLibrary :=
  { catalog_id := "10", name := "Album 1", artist_name := "Artist",
    release_date := "2020-01-01", tracks := [exSrcTrack1, exSrcTrack2] }

/-- Destination album of the simple matching example. -/
def exDestination : Album TrackNoLibrary :=
  { catalog_id := "11", name := "Album 1", artist_name := "Artist",
    release_date := "2020-01-02", tracks := [exDstTrack1, exDstTrack2] }

/-- Source track with a `(name, artist)` pair shared with `dupSrcTrack2`. -/
def dupSrcTrack1 : TrackWithLibrary :=
  { catalog_id := "s1", name := "N", artist_name := "A", is_explicit := false,
    isrc := "I1", release_date := "2020-01-01", library_id := none }

/-- Second source track with the shared `(name, artist)` pair. -/
def dupSrcTrack2 : TrackWithLibrary :=
  { catalog_id := "s2", name := "N", artist_name := "A", is_explicit := false,
    isrc := "I2", release_date := "2020-01-01", library_id := none }

/-- The lone destination track both sources fall back onto. -/
def dupDstTrack : TrackNoLibrary :=
  { catalog_id := "d1", name := "N", artist_name := "A", is_explicit := false,
    isrc := "I3", release_date := "2020-01-01" }

/-- Source album whose two tracks share a `(name, artist)` pair but not ISRCs. -/
def dupSource : Album TrackWithLibrary :=
  { catalog_id := "s", name := "Album", artist_name := "A",
    release_date := "2020-01-01", tracks := [dupSrcTrack1, dupSrcTrack2] }

/-- Destination album with a single track carrying that `(name, artist)` pair. -/
def dupDestination : Album TrackNoLibrary :=
  { catalog_id := "d", name := "Album", artist_name := "A",
    release_date := "2020-01-01", tracks := [dupDstTrack] }

/-- Source track whose ISRC and `(name, artist)` point at different
destination tracks. -/
def isrcSrcTrack : TrackWithLibrary :=
  { catalog_id := "1", name := "Song 1", artist_name := "Artist", is_explicit := false,
    isrc := "ISRC1", release_date := "2020-01-01", library_id := none }

/-- Destination decoy: same `(name, artist)` as the source track, other ISRC. -/
def isrcDstDecoy : TrackNoLibrary :=
  { catalog_id := "2", name := "Song 1", artist_name := "Artist", is_explicit := false,
    isrc := "ISRC9", release_date := "2020-01-01" }

/-- Destination target: same ISRC as the source track, other name. -/
def isrcDstReal : TrackNoLibrary :=
  { catalog_id := "3", name := "Song X", artist_name := "Artist", is_explicit := false,
    isrc := "ISRC1", release_date := "2020-01-01" }

/-- Source album for the ISRC-precedence example. -/
def isrcSource : Album TrackWithLibrary :=
  { catalog_id := "10", name := "Album 1", artist_name := "Artist",
    release_date := "2020-01-01", tracks := [isrcSrcTrack] }

/-- Destination album for the ISRC-precedence example. -/
def isrcDestination : Album TrackNoLibrary :=
  { catalog_id := "11", name := "Album 1", artist_name := "Artist",
    release_date := "2020-01-01", tracks := [isrcDstDecoy, isrcDstReal] }

/-- Source track for the name/artist fallback example (scenario 3 of the
spec): ISRC absent from the destination. -/
def fbSrcTrack : TrackWithLibrary :=
  { catalog_id := "1", name := "Song 1", artist_name := "Artist", is_explicit := false,
    isrc := "ISRC1", release_date := "2020-01-01", library_id := none }

/-- The single destination track sharing the source track name and artist. -/
def fbDstTrack : TrackNoLibrary :=
  { catalog_id := "2", name := "Song 1", artist_name := "Artist", is_explicit := false,
    isrc := "ISRC2", release_date := "2020-01-01" }

/-- Source album for the fallback example. -/
def fbSource : Album TrackWithLibrary :=
  { catalog_id := "10", name := "Album 1", artist_name := "Artist",
    release_date := "2020-01-01", tracks := [fbSrcTrack] }

/-- Destination album for the fallback example. -/
def fbDestination : Album TrackNoLibrary :=
  { catalog_id := "11", name := "Album 1", artist_name := "Artist",
    release_date := "2020-01-01", tracks := [fbDstTrack] }

/-- A destination album sharing `exSource`'s catalog ID (scenario 2). -/
def sameIdDestination : Album TrackNoLibrary :=
  { catalog_id := "10", name := "Album 1", artist_name := "Artist",
    release_date := "2020-01-02", tracks := [exDstTrack1] }

/-- A raw catalog payload declaring zero tracks and supplying none. -/
def emptyRoot : catalog_album.Root :=
  { data := [
      { id := "1"
        attributes :=
          { artist_name := "Artist", name := "Album",
            release_date := "2000-01-01", track_count := 0 }
        relationships := { tracks := { data := [] } } } ] }

/-- The album `try_from` builds from `emptyRoot`. -/
def emptyAlbum : Album TrackNoLibrary :=
  { catalog_id := "1", name := "Album", artist_name := "Artist",
    release_date := "2000-01-01", tracks := [] }

/-- The two-disc catalog album record of
`test_catalog_album_into_album_three_tracks_two_discs_sorted`, with its track
records out of canonical order. -/
def twoDiscEntry : catalog_album.AlbumEntry :=
  { id := "1"
    attributes :=
      { artist_name := "Artist", name := "Album",
        release_date := "2000-01-01", track_count := 3 }
    relationships := { tracks := { data := [
      { id := "3"
        attributes :=
          { artist_name := "Artist", content_rating := none, disc_number := 2,
            isrc := "ISRC3", name := "Song 3", release_date := "2000-01-01",
            track_number := 2 } },
      { id := "2"
        attributes :=
          { artist_name := "Artist",
            content_rating := some catalog_album.ContentRating.explicit,
            disc_number := 2, isrc := "ISRC2", name := "Song 2",
            release_date := "2000-01-01", track_number := 1 } },
      { id := "1"
        attributes :=
          { artist_name := "Artist", content_rating := none, disc_number := 1,
            isrc := "ISRC1", name := "Song 1", release_date := "2000-01-01",
            track_number := 1 } } ] } } }

/-- The payload wrapping `twoDiscEntry`. -/
def twoDiscRoot : catalog_album.Root := { data := [twoDiscEntry] }

/-- The album `try_from` builds from `twoDiscRoot` (canonical order). -/
def twoDiscAlbum : Album TrackNoLibrary :=
  { catalog_id := "1", name := "Album", artist_name := "Artist",
    release_date := "2000-01-01", tracks := [
      { catalog_id := "1", name := "Song 1", artist_name := "Artist",
        is_explicit := false, isrc := "ISRC1", release_date := "2000-01-01" },
      { catalog_id := "2", name := "Song 2", artist_name := "Artist",
        is_explicit := true, isrc := "ISRC2", release_date := "2000-01-01" },
      { catalog_id := "3", name := "Song 3", artist_name := "Artist",
        is_explicit := false, isrc := "ISRC3", release_date := "2000-01-01" } ] }

/-- A raw catalog payload with no album record at all. -/
def noAlbumRoot : catalog_album.Root := { data := [] }

/-- The catalog album of `test_with_library_info_two_tracks_out_of_order`. -/
def mergeAlbum : Album TrackNoLibrary :=
  { catalog_id := "0", name := "Album", artist_name := "Artist",
    release_date := "2000-01-01", tracks := [
      { catalog_id := "1", name := "Song 1", artist_name := "Artist",
        is_explicit := false, isrc := "ISRC1", release_date := "2000-01-01" },
      { catalog_id := "2", name := "Song 2", artist_name := "Artist",
        is_explicit := false, isrc := "ISRC2", release_date := "2000-01-01" } ] }

/-- The library album record of that test, tracks listed out of order. -/
def mergeLib : library_album.LibraryAlbum :=
  { id := "l.0"
    relationships :=
      { catalog := { data := [ { id := "0" } ] }
        tracks := { data := [
          { id := "i.2", attributes := { play_params := { catalog_id := "2" } } },
          { id := "i.1", attributes := { play_params := { catalog_id := "1" } } } ] } } }

/-- The library response wrapping `mergeLib`. -/
def mergeResp : library_album.Root := { data := [mergeLib] }

/-- The merged album `with_library_info` builds from `mergeAlbum` and
`mergeResp`. -/
def mergeOut : Album TrackWithLibrary :=
  { catalog_id := "0", name := "Album", artist_name := "Artist",
    release_date := "2000-01-01", tracks := [
      { catalog_id := "1", name := "Song 1", artist_name := "Artist",
        is_explicit := false, isrc := "ISRC1", release_date := "2000-01-01",
        library_id := some ("i.1") },
      { catalog_id := "2", name := "Song 2", artist_name := "Artist",
        is_explicit := false, isrc := "ISRC2", release_date := "2000-01-01",
        library_id := some ("i.2") } ] }

/-! ### Helper lemmas about the set-like checks -/

theorem allDistinct_iff {α : Type} [BEq α] [LawfulBEq α] (l : List α) :
    allDistinct l = true ↔ l.Nodup := by
  induction l with
  | nil => simp [allDistinct]
  | cons x xs ih => simp [allDistinct, List.nodup_cons, ih, And.comm]

theorem listsDisjoint_iff {α : Type} [BEq α] [LawfulBEq α] (l1 l2 : List α) :
    listsDisjoint l1 l2 = true ↔ ∀ x ∈ l1, x ∉ l2 := by
  simp [listsDisjoint]

/-! ### Helper lemmas about the ISRC index lookup -/

theorem isrcIdx_eq_some {x : String} {ds : List TrackNoLibrary} {j : Nat}
    (h : isrcIdx x ds = some j) : ∃ dt, ds[j]? = some dt ∧ dt.isrc = x := by
  induction ds generalizing j with
  | nil => simp [isrcIdx] at h
  | cons t ts ih =>
    by_cases ht : t.isrc = x
    · simp [isrcIdx, ht] at h
      exact ⟨t, by simp [h.symm], ht⟩
    · simp [isrcIdx, ht] at h
      obtain ⟨j0, hj0, rfl⟩ := h
      obtain ⟨dt, hdt, hx⟩ := ih hj0
      exact ⟨dt, by simpa using hdt, hx⟩

theorem isrcIdx_eq_none {x : String} {ds : List TrackNoLibrary} :
    isrcIdx x ds = none ↔ ∀ dt ∈ ds, dt.isrc ≠ x := by
  induction ds with
  | nil => simp [isrcIdx]
  | cons t ts ih =>
    by_cases ht : t.isrc = x
    · simp [isrcIdx, ht]
    · simp [isrcIdx, ht, ih]

theorem isrcIdx_of_getElem {x : String} {ds : List TrackNoLibrary} {j : Nat} {dt : TrackNoLibrary}
    (h : ds[j]? = some dt) (hx : dt.isrc = x)
    (hnd : (ds.map (fun t => t.isrc)).Nodup) : isrcIdx x ds = some j := by
  induction ds generalizing j with
  | nil => simp at h
  | cons t ts ih =>
    simp only [List.map_cons, List.nodup_cons] at hnd
    cases j with
    | zero =>
      simp at h
      simp [isrcIdx, h ▸ hx]
    | succ j =>
      simp only [List.getElem?_cons_succ] at h
      have hne : t.isrc ≠ x := by
        intro he
        have hmem : dt ∈ ts := List.getElem?_mem h
        have hmem2 : dt.isrc ∈ ts.map (fun t => t.isrc) :=
          List.mem_map_of_mem _ hmem
        rw [hx, ← he] at hmem2
        exact hnd.1 hmem2
      simp [isrcIdx, hne, ih h hnd.2]

/-! ### Helper lemmas about the name/artist index lookup -/

theorem naIndices_length (n a : String) (ds : List TrackNoLibrary) :
    (naIndices n a ds).length = ds.countP (fun t => t.name == n && t.artist_name == a) := by
  induction ds with
  | nil => simp [naIndices]
  | cons t ts ih =>
    by_cases ht : t.name = n ∧ t.artist_name = a
    · simp [naIndices, ht.1, ht.2, List.countP_cons, ih]
    · have hb : (t.name == n && t.artist_name == a) = false := by
        rcases not_and_or.mp ht with h | h <;> simp [h]
      simp only [naIndices, List.countP_cons, hb]
      simp [hb, ih]

theorem naIndices_mem {n a : String} {ds : List TrackNoLibrary} {j : Nat} {dt : TrackNoLibrary}
    (h : ds[j]? = some dt) (hn : dt.name = n) (ha : dt.artist_name = a) :
    j ∈ naIndices n a ds := by
  induction ds generalizing j with
  | nil => simp at h
  | cons t ts ih =>
    cases j with
    | zero =>
      simp at h
      simp [naIndices, h ▸ hn, h ▸ ha]
    | succ j =>
      simp only [List.getElem?_cons_succ] at h
      have hmem2 : j + 1 ∈ (naIndices n a ts).map (fun j => j + 1) :=
        List.mem_map_of_mem _ (ih h)
      by_cases ht : t.name = n ∧ t.artist_name = a
      · have hcond : (t.name == n && t.artist_name == a) = true := by
          simp [ht.1, ht.2]
        simp only [naIndices, hcond, if_true]
        exact List.mem_cons_of_mem _ hmem2
      · have hcond : (t.name == n && t.artist_name == a) = false := by
          rcases not_and_or.mp ht with h2 | h2 <;> simp [h2]
        simp only [naIndices, hcond, Bool.false_eq_true, if_false]
        exact hmem2

theorem isrcIdx_inj {x y : String} {ds : List TrackNoLibrary} {j : Nat}
    (hx : isrcIdx x ds = some j) (hy : isrcIdx y ds = some j) : x = y := by
  obtain ⟨dt, hdt, hdx⟩ := isrcIdx_eq_some hx
  obtain ⟨dt2, hdt2, hdy⟩ := isrcIdx_eq_some hy
  rw [hdt] at hdt2
  cases hdt2
  rw [← hdx, ← hdy]

/-! ### Helper lemmas about the matching loop -/

theorem matchLoop_ok_map {ds : List TrackNoLibrary} {srcs : List TrackWithLibrary}
    {used : List Nat} {res : List TrackMatchResult}
    (h : matchLoop ds srcs used = Except.ok res) :
    res = srcs.map (verdictFor ds) := by
  induction srcs generalizing used res with
  | nil =>
    simp only [matchLoop, Except.ok.injEq] at h
    simp [h.symm]
  | cons s rest ih =>
    simp only [matchLoop] at h
    split at h
    next j hidx =>
      split at h
      next hc => simp at h
      next hc =>
        cases hrec : matchLoop ds rest (j :: used) with
        | ok rs =>
          rw [hrec] at h
          simp only [Except.ok.injEq] at h
          rw [← h, List.map_cons, verdictFor, hidx]
          exact congrArg _ (ih hrec)
        | error e => rw [hrec] at h; simp at h
    next hidx =>
      split at h
      next hna =>
        cases hrec : matchLoop ds rest used with
        | ok rs =>
          rw [hrec] at h
          simp only [Except.ok.injEq] at h
          rw [← h, List.map_cons, verdictFor, hidx, hna]
          exact congrArg _ (ih hrec)
        | error e => rw [hrec] at h; simp at h
      next j hna =>
        cases hrec : matchLoop ds rest used with
        | ok rs =>
          rw [hrec] at h
          simp only [Except.ok.injEq] at h
          rw [← h, List.map_cons, verdictFor, hidx, hna]
          exact congrArg _ (ih hrec)
        | error e => rw [hrec] at h; simp at h
      next j j2 tl hna => simp at h

theorem matchLoop_ok_not_ambiguous {ds : List TrackNoLibrary} {srcs : List TrackWithLibrary}
    {used : List Nat} {res : List TrackMatchResult}
    (h : matchLoop ds srcs used = Except.ok res) {s : TrackWithLibrary}
    (hs : s ∈ srcs) (hn : isrcIdx s.isrc ds = none) :
    (naIndices s.name s.artist_name ds).length ≤ 1 := by
  induction srcs generalizing used res with
  | nil => simp at hs
  | cons hd rest ih =>
    simp only [matchLoop] at h
    split at h
    next j hidx =>
      have hs2 : s ∈ rest := by
        rcases List.mem_cons.mp hs with rfl | hs2
        · rw [hn] at hidx; cases hidx
        · exact hs2
      split at h
      next hc => simp at h
      next hc =>
        cases hrec : matchLoop ds rest (j :: used) with
        | ok rs => exact ih hrec hs2
        | error e => rw [hrec] at h; simp at h
    next hidx =>
      rcases List.mem_cons.mp hs with rfl | hs2
      · split at h
        next hna => simp [hna]
        next j hna => simp [hna]
        next j j2 tl hna => simp at h
      · split at h
        next hna =>
          cases hrec : matchLoop ds rest used with
          | ok rs => exact ih hrec hs2
          | error e => rw [hrec] at h; simp at h
        next j hna =>
          cases hrec : matchLoop ds rest used with
          | ok rs => exact ih hrec hs2
          | error e => rw [hrec] at h; simp at h
        next j j2 tl hna => simp at h

theorem matchLoop_ne_collision {ds : List TrackNoLibrary} {srcs : List TrackWithLibrary}
    {used : List Nat}
    (hnd : (srcs.map (fun s => s.isrc)).Nodup)
    (hinv : ∀ s ∈ srcs, ∀ j ∈ used, isrcIdx s.isrc ds ≠ some j) :
    matchLoop ds srcs used ≠ Except.error ("used_destinations.insert(destination_index)") := by
  induction srcs generalizing used with
  | nil => simp [matchLoop]
  | cons s rest ih =>
    simp only [List.map_cons, List.nodup_cons] at hnd
    simp only [matchLoop]
    split
    next j hidx =>
      have hjnot : ¬(used.contains j = true) := by
        intro hc
        exact hinv s (List.mem_cons_self s rest) j (by simpa using hc) hidx
      rw [if_neg hjnot]
      cases hrec : matchLoop ds rest (j :: used) with
      | ok rs => simp
      | error e =>
        have hinv2 : ∀ s2 ∈ rest, ∀ j2 ∈ (j :: used), isrcIdx s2.isrc ds ≠ some j2 := by
          intro s2 hs2 j2 hj2 hcon
          rcases List.mem_cons.mp hj2 with rfl | hj2u
          · have heq : s2.isrc = s.isrc := isrcIdx_inj hcon hidx
            exact hnd.1 (heq ▸ List.mem_map_of_mem _ hs2)
          · exact hinv s2 (List.mem_cons_of_mem s hs2) j2 hj2u hcon
        have := ih hnd.2 hinv2
        rw [hrec] at this
        exact this
    next hidx =>
      have hinv2 : ∀ s2 ∈ rest, ∀ j2 ∈ used, isrcIdx s2.isrc ds ≠ some j2 :=
        fun s2 hs2 j2 hj2 => hinv s2 (List.mem_cons_of_mem s hs2) j2 hj2
      split
      next hna =>
        cases hrec : matchLoop ds rest used with
        | ok rs => simp
        | error e =>
          have := ih hnd.2 hinv2
          rw [hrec] at this
          exact this
      next j hna =>
        cases hrec : matchLoop ds rest used with
        | ok rs => simp
        | error e =>
          have := ih hnd.2 hinv2
          rw [hrec] at this
          exact this
      next j j2 tl hna =>
        intro hcon
        have heq := Except.error.inj hcon
        exact absurd heq (by decide)

/-- Inverting a successful `match_tracks` run: every precondition holds and
the verdicts are the per-source-track verdicts, in source order. -/
theorem match_tracks_ok_inv {source : Album TrackWithLibrary}
    {destination : Album TrackNoLibrary} {res : List TrackMatchResult}
    (h : match_tracks source destination = Except.ok res) :
    source.catalog_id ≠ destination.catalog_id ∧
    source.tracks ≠ [] ∧
    destination.tracks ≠ [] ∧
    (source.tracks.map (fun t => t.catalog_id)).Nodup ∧
    (destination.tracks.map (fun t => t.catalog_id)).Nodup ∧
    (∀ cid ∈ source.tracks.map (fun t => t.catalog_id),
        cid ∉ destination.tracks.map (fun t => t.catalog_id)) ∧
    (source.tracks.map (fun t => t.isrc)).Nodup ∧
    (destination.tracks.map (fun t => t.isrc)).Nodup ∧
    res = source.tracks.map (verdictFor destination.tracks) := by
  unfold match_tracks at h
  split_ifs at h with h1 h2 h3 h4 h5 h6 h7 h8
  refine ⟨by simpa using h1, by simpa using h2, by simpa using h3, ?_, ?_, ?_, ?_, ?_, ?_⟩
  · exact (allDistinct_iff _).mp (by simpa using h4)
  · exact (allDistinct_iff _).mp (by simpa using h5)
  · exact (listsDisjoint_iff _ _).mp (by simpa using h6)
  · exact (allDistinct_iff _).mp (by simpa using h7)
  · exact (allDistinct_iff _).mp (by simpa using h8)
  · exact matchLoop_ok_map h

/-! ### Helper lemmas about the contiguity walk -/

theorem trackLe_disc_le {a b : Nat × Nat × TrackNoLibrary} (h : trackLe a b) :
    a.1 ≤ b.1 := by
  rcases h with h | ⟨h, _⟩
  · exact Nat.le_of_lt h
  · exact Nat.le_of_eq h

/-- One step of the contiguity walk. -/
theorem checkContiguous_cons {c : Option Nat} {e : Nat} {t : Nat × Nat × TrackNoLibrary}
    {rest : List (Nat × Nat × TrackNoLibrary)} :
    checkContiguous c e (t :: rest) = true ↔
      (t.2.1 = (if c = some t.1 then e else 1) ∧
        (if c = some t.1 then e else 1) ≠ 255 ∧
        checkContiguous (some t.1) ((if c = some t.1 then e else 1) + 1) rest = true) := by
  rw [checkContiguous]
  simp only [Bool.and_eq_true, beq_iff_eq, bne_iff_ne]
  tauto

/-- A passing contiguity walk on a `trackLe`-sorted list makes the
`(disc, track number)` keys strictly increase between neighbours. -/
theorem checkContiguous_chain {l : List (Nat × Nat × TrackNoLibrary)}
    {c : Option Nat} {e : Nat}
    (hsort : List.Pairwise trackLe l)
    (hchk : checkContiguous c e l = true) :
    List.Chain' trackLt l := by
  induction l generalizing c e with
  | nil => exact List.chain'_nil
  | cons x rest ih =>
    cases rest with
    | nil => simp
    | cons y rest2 =>
      obtain ⟨hx, hxne, hchk2⟩ := checkContiguous_cons.mp hchk
      have hsort2 := (List.pairwise_cons.mp hsort).2
      have hxy : trackLe x y := (List.pairwise_cons.mp hsort).1 y (List.mem_cons_self y rest2)
      refine List.chain'_cons.mpr ⟨?_, ih hsort2 hchk2⟩
      by_cases hdisc : x.1 = y.1
      · obtain ⟨hy, hyne, hchk3⟩ := checkContiguous_cons.mp hchk2
        have hcond : some x.1 = some y.1 := by rw [hdisc]
        rw [if_pos hcond] at hy
        exact Or.inr ⟨hdisc, by rw [hy, ← hx]; exact Nat.lt_succ_self _⟩
      · rcases hxy with h | ⟨h, _⟩
        · exact Or.inl h
        · exact absurd h hdisc

/-- A passing contiguity walk on a sorted list whose discs all lie at or above
the current disc `d` numbers disc `d` as `e, e+1, ...` and every other disc
as `1, 2, ...`. -/
theorem checkContiguous_discNums {l : List (Nat × Nat × TrackNoLibrary)} {d e : Nat}
    (hsort : List.Pairwise trackLe l)
    (hlo : ∀ t ∈ l, d ≤ t.1)
    (hchk : checkContiguous (some d) e l = true) :
    discNums d l = List.range' e (discNums d l).length ∧
      ∀ d2, d2 ≠ d → discNums d2 l = List.range' 1 (discNums d2 l).length := by
  induction l generalizing d e with
  | nil => simp [discNums]
  | cons t rest ih =>
    have hsort2 := (List.pairwise_cons.mp hsort).2
    obtain ⟨hnum, hne, hchk2⟩ := checkContiguous_cons.mp hchk
    by_cases hd : t.1 = d
    · have hcond : some d = some t.1 := by rw [hd]
      rw [if_pos hcond] at hnum hchk2
      rw [hd] at hchk2
      have hlo2 : ∀ u ∈ rest, d ≤ u.1 := fun u hu => hlo u (List.mem_cons_of_mem t hu)
      obtain ⟨ihd, ihother⟩ := ih hsort2 hlo2 hchk2
      constructor
      · have hfil : discNums d (t :: rest) = t.2.1 :: discNums d rest := by
          simp [discNums, List.filter_cons, hd]
        rw [hfil, ihd, hnum]
        simp [List.range'_succ, List.length_range']
      · intro d2 hd2
        have hfil : discNums d2 (t :: rest) = discNums d2 rest := by
          have hne2 : ¬(t.1 == d2) = true := by simp [hd, Ne.symm hd2]
          simp [discNums, List.filter_cons, hne2]
        rw [hfil]
        exact ihother d2 hd2
    · have hcond : ¬(some d = some t.1) := by
        intro hcon
        exact hd (Option.some.inj hcon).symm
      rw [if_neg hcond] at hnum hchk2
      have hdlt : d < t.1 :=
        Nat.lt_of_le_of_ne (hlo t (List.mem_cons_self t rest)) (Ne.symm hd)
      have hlo2 : ∀ u ∈ rest, t.1 ≤ u.1 := fun u hu =>
        trackLe_disc_le ((List.pairwise_cons.mp hsort).1 u hu)
      obtain ⟨ihd, ihother⟩ := ih hsort2 hlo2 hchk2
      constructor
      · have hfil1 : discNums d (t :: rest) = discNums d rest := by
          have hne2 : ¬(t.1 == d) = true := by simp [hd]
          simp [discNums, List.filter_cons, hne2]
        have hfil2 : discNums d rest = [] := by
          unfold discNums
          rw [List.filter_eq_nil_iff.mpr, List.map_nil]
          intro u hu
          have := hlo2 u hu
          simp only [beq_iff_eq]
          omega
        rw [hfil1, hfil2]
        simp
      · intro d2 hd2
        by_cases hdt : d2 = t.1
        · have hfil : discNums d2 (t :: rest) = t.2.1 :: discNums d2 rest := by
            simp [discNums, List.filter_cons, hdt]
          have hdr : discNums d2 rest = discNums t.1 rest := by rw [hdt]
          rw [hfil, hdr, ihd, hnum]
          simp [List.range'_succ, List.length_range']
        · have hfil : discNums d2 (t :: rest) = discNums d2 rest := by
            have hne2 : ¬(t.1 == d2) = true := by simp [Ne.symm hdt]
            simp [discNums, List.filter_cons, hne2]
          rw [hfil]
          exact ihother d2 hdt

/-- Top-level contiguity: a sorted list passing the walk from the initial
state numbers every disc exactly `1, 2, ...`. -/
theorem checkContiguous_discNums_top {l : List (Nat × Nat × TrackNoLibrary)}
    (hsort : List.Pairwise trackLe l)
    (hchk : checkContiguous none 1 l = true) :
    ∀ d, discNums d l = List.range' 1 (discNums d l).length := by
  cases l with
  | nil => intro d; simp [discNums]
  | cons t rest =>
    obtain ⟨hnum, hne, hchk2⟩ := checkContiguous_cons.mp hchk
    have hcond : ¬((none : Option Nat) = some t.1) := by simp
    rw [if_neg hcond] at hnum hchk2
    have hsort2 := (List.pairwise_cons.mp hsort).2
    have hlo2 : ∀ u ∈ rest, t.1 ≤ u.1 := fun u hu =>
      trackLe_disc_le ((List.pairwise_cons.mp hsort).1 u hu)
    obtain ⟨ihd, ihother⟩ := checkContiguous_discNums hsort2 hlo2 hchk2
    intro d
    by_cases hdt : d = t.1
    · have hfil : discNums d (t :: rest) = t.2.1 :: discNums d rest := by
        simp [discNums, List.filter_cons, hdt]
      have hdr : discNums d rest = discNums t.1 rest := by rw [hdt]
      rw [hfil, hdr, ihd, hnum]
      simp [List.range'_succ, List.length_range']
    · have hfil : discNums d (t :: rest) = discNums d rest := by
        have hne2 : ¬(t.1 == d) = true := by simp [Ne.symm hdt]
        simp [discNums, List.filter_cons, hne2]
      rw [hfil]
      exact ihother d hdt

/-! ### Inversion of successful album construction -/

theorem try_from_ok_inv {root : catalog_album.Root} {a : Album TrackNoLibrary}
    (h : try_from root = Except.ok a) :
    ∀ alb ∈ root.data,
      root.data = [alb] ∧
      (mkTriples alb).length = alb.attributes.track_count ∧
      checkContiguous none 1 (sortTracks (mkTriples alb)) = true ∧
      ((sortTracks (mkTriples alb)).map (fun t => t.2.2.catalog_id)).Nodup ∧
      a.tracks = (sortTracks (mkTriples alb)).map (fun t => t.2.2) := by
  unfold try_from at h
  split at h
  next album heq =>
    dsimp only at h
    split_ifs at h with hcnt hchk hnod
    simp only [Except.ok.injEq] at h
    intro alb hmem
    rw [heq] at hmem
    simp only [List.mem_singleton] at hmem
    subst hmem
    refine ⟨heq, by omega, ?_, ?_, ?_⟩
    · by_contra hcon
      exact hchk (by simp [hcon])
    · refine (allDistinct_iff _).mp ?_
      by_contra hcon
      exact hnod (by simp [hcon])
    · rw [← h]
  next heq2 =>
    simp at h

/-! ### Inversion of a successful library merge -/

theorem buildCatalogToLibrary_ok {albumTracks : List TrackNoLibrary}
    {songs : List library_album.LibrarySong} {acc m : List (String × String)}
    (h : buildCatalogToLibrary albumTracks songs acc = Except.ok m) :
    m = acc ++ songs.map (fun s => (s.attributes.play_params.catalog_id, s.id)) := by
  induction songs generalizing acc with
  | nil =>
    simp only [buildCatalogToLibrary, Except.ok.injEq] at h
    simp [h.symm]
  | cons song rest ih =>
    simp only [buildCatalogToLibrary] at h
    split_ifs at h with h1 h2
    rw [ih h]
    simp

theorem lookup_map_eq_libraryLookup (songs : List library_album.LibrarySong) (cid : String) :
    (songs.map (fun s => (s.attributes.play_params.catalog_id, s.id))).lookup cid =
      libraryLookup songs cid := by
  induction songs with
  | nil => simp [libraryLookup]
  | cons s rest ih =>
    by_cases hc : s.attributes.play_params.catalog_id = cid
    · simp [libraryLookup, List.lookup, hc]
    · have hb : (cid == s.attributes.play_params.catalog_id) = false := by
        simp [Ne.symm hc]
      have hb2 : (s.attributes.play_params.catalog_id == cid) = false := by
        simp [hc]
      simp [libraryLookup, List.lookup, hb, hb2, List.find?_cons_of_neg]
      rw [ih]
      rfl

theorem with_library_info_ok_inv {album : Album TrackNoLibrary}
    {resp : library_album.Root} {out : Album TrackWithLibrary}
    (h : with_library_info album resp = Except.ok out) :
    out.catalog_id = album.catalog_id ∧
    out.tracks.length = album.tracks.length ∧
    ∀ lib ∈ resp.data,
      out.tracks = album.tracks.map (fun t =>
        t.with_library_id (libraryLookup lib.relationships.tracks.data t.catalog_id)) := by
  unfold with_library_info at h
  split at h
  next lib0 heq =>
    split at h
    next cat heq2 =>
      split_ifs at h with hid
      split at h
      next e hbuild => simp at h
      next m hbuild =>
        split_ifs at h with hemp
        simp only [Except.ok.injEq] at h
        have hm : m = lib0.relationships.tracks.data.map
            (fun s => (s.attributes.play_params.catalog_id, s.id)) := by
          have := buildCatalogToLibrary_ok hbuild
          simpa using this
        refine ⟨by rw [← h], by rw [← h]; simp, ?_⟩
        intro lib hmem
        rw [heq] at hmem
        simp only [List.mem_singleton] at hmem
        subst hmem
        rw [← h]
        refine List.map_congr_left ?_
        intro t ht
        rw [hm, lookup_map_eq_libraryLookup]
    next heq2 => simp at h
  next heq => simp at h

theorem match_tracks_ok_loop {source : Album TrackWithLibrary}
    {destination : Album TrackNoLibrary} {res : List TrackMatchResult}
    (h : match_tracks source destination = Except.ok res) :
    matchLoop destination.tracks source.tracks [] = Except.ok res := by
  unfold match_tracks at h
  split_ifs at h with h1 h2 h3 h4 h5 h6 h7 h8
  exact h

theorem verdictFor_source (ds : List TrackNoLibrary) (s : TrackWithLibrary) :
    (verdictFor ds s).source = s := by
  unfold verdictFor
  split
  · rfl
  · split <;> rfl

/-- A verdict produced as a `Match` for a source track whose ISRC occurs in
the destination always came from the ISRC map. -/
theorem verdictFor_isrc_match {ds : List TrackNoLibrary} {s si : TrackWithLibrary} {d : Nat}
    (hv : verdictFor ds s = TrackMatchResult.Match si d)
    (hpresent : ∃ dt ∈ ds, dt.isrc = si.isrc) :
    si = s ∧ isrcIdx s.isrc ds = some d := by
  unfold verdictFor at hv
  cases hidx : isrcIdx s.isrc ds with
  | some j =>
    rw [hidx] at hv
    injection hv with h1 h2
    subst h2
    exact ⟨h1.symm, rfl⟩
  | none =>
    rw [hidx] at hv
    exfalso
    obtain ⟨dt, hdt, hdtisrc⟩ := hpresent
    have hsi : si = s := by
      cases hna : naIndices s.name s.artist_name ds with
      | nil => rw [hna] at hv; exact TrackMatchResult.noConfusion hv
      | cons j tl =>
        cases tl with
        | nil =>
          rw [hna] at hv
          injection hv with h1 h2
          exact h1.symm
        | cons j2 tl2 => rw [hna] at hv; exact TrackMatchResult.noConfusion hv
    rw [hsi] at hdtisrc
    exact isrcIdx_eq_none.mp hidx dt hdt hdtisrc

/-! ### Claim theorems -/

/-- C3: whenever `match_tracks` succeeds, the returned sequence has exactly
one verdict per source track, the verdicts appear in source canonical order,
and the verdict at position `i` carries the `i`-th source track as its
source. -/
theorem match_tracks_output_shape (source : Album TrackWithLibrary)
    (destination : Album TrackNoLibrary) (res : List TrackMatchResult)
    (hok : match_tracks source destination = Except.ok res) :
    res.length = source.tracks.length ∧
    ∀ i : Nat, (res[i]?).map TrackMatchResult.source = source.tracks[i]? := by
  obtain ⟨-, -, -, -, -, -, -, -, hres⟩ := match_tracks_ok_inv hok
  subst hres
  constructor
  · exact List.length_map _ _
  · intro i
    rw [List.getElem?_map]
    cases h : source.tracks[i]? with
    | none => rfl
    | some st => simp [verdictFor_source]

/-- Witness for C3 at the simple two-track albums. -/
theorem match_tracks_output_shape_witness :
    ([TrackMatchResult.Match exSrcTrack1 0, TrackMatchResult.Match exSrcTrack2 1] :
      List TrackMatchResult).length = exSource.tracks.length :=
  (match_tracks_output_shape exSource exDestination
    [TrackMatchResult.Match exSrcTrack1 0, TrackMatchResult.Match exSrcTrack2 1]
    (by decide)).1

/-- C4: whenever some destination track carries the same ISRC as a source
track, a successful `match_tracks` matches that source track to that
destination track, regardless of any `(name, artist)` coincidences. -/
theorem match_tracks_isrc_precedence (source : Album TrackWithLibrary)
    (destination : Album TrackNoLibrary) (res : List TrackMatchResult)
    (i j : Nat) (st : TrackWithLibrary) (dt : TrackNoLibrary)
    (hok : match_tracks source destination = Except.ok res)
    (hi : source.tracks[i]? = some st)
    (hj : destination.tracks[j]? = some dt)
    (hisrc : dt.isrc = st.isrc) :
    res[i]? = some (TrackMatchResult.Match st j) := by
  obtain ⟨-, -, -, -, -, -, -, hnd, hres⟩ := match_tracks_ok_inv hok
  subst hres
  rw [List.getElem?_map, hi]
  simp [verdictFor, isrcIdx_of_getElem hj hisrc hnd]

/-- Witness for C4: the ISRC match at index 1 wins over the name/artist decoy
at index 0. -/
theorem match_tracks_isrc_precedence_witness :
    ([TrackMatchResult.Match isrcSrcTrack 1] : List TrackMatchResult)[0]? =
      some (TrackMatchResult.Match isrcSrcTrack 1) :=
  match_tracks_isrc_precedence isrcSource isrcDestination
    [TrackMatchResult.Match isrcSrcTrack 1] 0 1 isrcSrcTrack isrcDstReal
    (by decide) (by decide) (by decide) (by decide)

/-- C6: `match_tracks` errors whenever any precondition is violated: equal
album catalog IDs, an empty track list, duplicate track catalog IDs,
overlapping track catalog IDs, or duplicate ISRCs. -/
theorem match_tracks_precondition_errors (source : Album TrackWithLibrary)
    (destination : Album TrackNoLibrary)
    (h : source.catalog_id = destination.catalog_id ∨
         source.tracks = [] ∨ destination.tracks = [] ∨
         ¬ (source.tracks.map (fun t => t.catalog_id)).Nodup ∨
         ¬ (destination.tracks.map (fun t => t.catalog_id)).Nodup ∨
         (∃ cid, cid ∈ source.tracks.map (fun t => t.catalog_id) ∧
                 cid ∈ destination.tracks.map (fun t => t.catalog_id)) ∨
         ¬ (source.tracks.map (fun t => t.isrc)).Nodup ∨
         ¬ (destination.tracks.map (fun t => t.isrc)).Nodup) :
    (match_tracks source destination).isOk = false := by
  cases hres : match_tracks source destination with
  | error e => rfl
  | ok res =>
    obtain ⟨h1, h2, h3, h4, h5, h6, h7, h8, -⟩ := match_tracks_ok_inv hres
    rcases h with hc | hc | hc | hc | hc | ⟨cid, hc1, hc2⟩ | hc | hc
    exacts [absurd hc h1, absurd hc h2, absurd hc h3, absurd h4 hc, absurd h5 hc,
      absurd hc2 (h6 cid hc1), absurd h7 hc, absurd h8 hc]

/-- Witness for C6: albums sharing a catalog ID are rejected. -/
theorem match_tracks_precondition_errors_witness :
    (match_tracks exSource sameIdDestination).isOk = false :=
  match_tracks_precondition_errors exSource sameIdDestination (Or.inl (by decide))

/-- C10: under the preconditions, the defensive collision guard on the ISRC
path is unreachable: `match_tracks` never returns its error. -/
theorem match_tracks_collision_guard_unreachable (source : Album TrackWithLibrary)
    (destination : Album TrackNoLibrary)
    (h1 : source.catalog_id ≠ destination.catalog_id)
    (h2 : source.tracks ≠ []) (h3 : destination.tracks ≠ [])
    (h4 : (source.tracks.map (fun t => t.catalog_id)).Nodup)
    (h5 : (destination.tracks.map (fun t => t.catalog_id)).Nodup)
    (h6 : ∀ cid ∈ source.tracks.map (fun t => t.catalog_id),
        cid ∉ destination.tracks.map (fun t => t.catalog_id))
    (h7 : (source.tracks.map (fun t => t.isrc)).Nodup)
    (h8 : (destination.tracks.map (fun t => t.isrc)).Nodup) :
    match_tracks source destination ≠
      Except.error ("used_destinations.insert(destination_index)") := by
  unfold match_tracks
  split_ifs with g1 g2 g3 g4 g5 g6 g7 g8
  · exact absurd (by simpa using g1) h1
  · exact absurd (by simpa using g2) h2
  · exact absurd (by simpa using g3) h3
  · rw [(allDistinct_iff _).mpr h4] at g4
    simp at g4
  · rw [(allDistinct_iff _).mpr h5] at g5
    simp at g5
  · rw [(listsDisjoint_iff _ _).mpr h6] at g6
    simp at g6
  · rw [(allDistinct_iff _).mpr h7] at g7
    simp at g7
  · rw [(allDistinct_iff _).mpr h8] at g8
    simp at g8
  · exact matchLoop_ne_collision h7 (fun s hs j hj => absurd hj (List.not_mem_nil j))

/-- Witness for C10 at the simple two-track albums. -/
theorem match_tracks_collision_guard_unreachable_witness :
    match_tracks exSource exDestination ≠
      Except.error ("used_destinations.insert(destination_index)") :=
  match_tracks_collision_guard_unreachable exSource exDestination
    (by decide) (by decide) (by decide) (by decide) (by decide) (by decide)
    (by decide) (by decide)

/-- C5: for a source track with no ISRC match, two or more `(name, artist)`
candidates in the destination fail the whole operation, and exactly one
candidate becomes the match for that source track. -/
theorem match_tracks_fallback_cardinality (source : Album TrackWithLibrary)
    (destination : Album TrackNoLibrary) (st : TrackWithLibrary)
    (hst : st ∈ source.tracks)
    (hno : ∀ dt ∈ destination.tracks, dt.isrc ≠ st.isrc) :
    (2 ≤ destination.tracks.countP
        (fun dt => dt.name == st.name && dt.artist_name == st.artist_name) →
      ∀ res, match_tracks source destination ≠ Except.ok res) ∧
    (∀ (j : Nat) (dt : TrackNoLibrary) (res : List TrackMatchResult) (i : Nat),
      destination.tracks[j]? = some dt →
      dt.name = st.name → dt.artist_name = st.artist_name →
      destination.tracks.countP
        (fun dt => dt.name == st.name && dt.artist_name == st.artist_name) = 1 →
      match_tracks source destination = Except.ok res →
      source.tracks[i]? = some st →
      res[i]? = some (TrackMatchResult.Match st j)) := by
  have hn : isrcIdx st.isrc destination.tracks = none := isrcIdx_eq_none.mpr hno
  constructor
  · intro h2 res hok
    have hloop := match_tracks_ok_loop hok
    have hle := matchLoop_ok_not_ambiguous hloop hst hn
    rw [naIndices_length] at hle
    omega
  · intro j dt res i hj hname hartist hcnt hok hi
    obtain ⟨-, -, -, -, -, -, -, -, hres⟩ := match_tracks_ok_inv hok
    subst hres
    rw [List.getElem?_map, hi]
    have hmemj : j ∈ naIndices st.name st.artist_name destination.tracks :=
      naIndices_mem hj hname hartist
    have hlen : (naIndices st.name st.artist_name destination.tracks).length = 1 := by
      rw [naIndices_length, hcnt]
    obtain ⟨x, hx⟩ := List.length_eq_one.mp hlen
    rw [hx] at hmemj
    simp only [List.mem_singleton] at hmemj
    subst hmemj
    simp [verdictFor, hn, hx]

/-- Witness for C5 at the single-candidate fallback albums (scenario 3). -/
theorem match_tracks_fallback_cardinality_witness :
    ([TrackMatchResult.Match fbSrcTrack 0] : List TrackMatchResult)[0]? =
      some (TrackMatchResult.Match fbSrcTrack 0) :=
  (match_tracks_fallback_cardinality fbSource fbDestination fbSrcTrack
    (by decide) (by decide)).2 0 fbDstTrack [TrackMatchResult.Match fbSrcTrack 0] 0
    (by decide) (by decide) (by decide) (by decide) (by decide) (by decide)

/-- C1 counterexample: both source tracks of `dupSource` fall back on the
same `(name, artist)` pair and are matched to destination index 0, so the
verdict sequence is not a partial injection. -/
theorem match_tracks_not_injective :
    match_tracks dupSource dupDestination =
      Except.ok [TrackMatchResult.Match dupSrcTrack1 0,
        TrackMatchResult.Match dupSrcTrack2 0] ∧
    ¬ (matchedIndices [TrackMatchResult.Match dupSrcTrack1 0,
        TrackMatchResult.Match dupSrcTrack2 0]).Nodup := by
  constructor
  · decide
  · decide

/-- C1 (amended): restricted to source tracks whose ISRC occurs in the
destination (the ISRC-matched ones), no two distinct source tracks are
matched to the same destination track; the name/artist fallback can still
re-claim a destination, as the counterexample shows. -/
theorem match_tracks_isrc_matches_injective (source : Album TrackWithLibrary)
    (destination : Album TrackNoLibrary) (res : List TrackMatchResult)
    (i j di dj : Nat) (si sj : TrackWithLibrary)
    (hok : match_tracks source destination = Except.ok res)
    (hij : i ≠ j)
    (hi : res[i]? = some (TrackMatchResult.Match si di))
    (hj : res[j]? = some (TrackMatchResult.Match sj dj))
    (hsi : ∃ dt ∈ destination.tracks, dt.isrc = si.isrc)
    (hsj : ∃ dt ∈ destination.tracks, dt.isrc = sj.isrc) :
    di ≠ dj := by
  obtain ⟨-, -, -, -, -, -, hnds, -, hres⟩ := match_tracks_ok_inv hok
  subst hres
  rw [List.getElem?_map] at hi hj
  cases hsrc_i : source.tracks[i]? with
  | none => rw [hsrc_i] at hi; simp at hi
  | some s1 =>
    cases hsrc_j : source.tracks[j]? with
    | none => rw [hsrc_j] at hj; simp at hj
    | some s2 =>
      rw [hsrc_i] at hi
      rw [hsrc_j] at hj
      simp only [Option.map_some', Option.some.injEq] at hi hj
      obtain ⟨hsi_eq, hidx_i⟩ := verdictFor_isrc_match hi hsi
      obtain ⟨hsj_eq, hidx_j⟩ := verdictFor_isrc_match hj hsj
      intro hcon
      rw [hcon] at hidx_i
      have hisrc_eq : s1.isrc = s2.isrc := isrcIdx_inj hidx_i hidx_j
      have hlen_i : i < source.tracks.length := by
        by_contra hcon2
        rw [List.getElem?_eq_none (by omega)] at hsrc_i
        cases hsrc_i
      have hmap_eq : (source.tracks.map (fun t => t.isrc))[i]? =
          (source.tracks.map (fun t => t.isrc))[j]? := by
        rw [List.getElem?_map, List.getElem?_map, hsrc_i, hsrc_j]
        simp [hisrc_eq]
      exact hij (List.getElem?_inj (by rw [List.length_map]; exact hlen_i) hnds hmap_eq)

/-- Witness for the amended C1 at the simple albums: the two ISRC matches
land on distinct destination indices. -/
theorem match_tracks_isrc_matches_injective_witness : (0 : Nat) ≠ 1 :=
  match_tracks_isrc_matches_injective exSource exDestination
    [TrackMatchResult.Match exSrcTrack1 0, TrackMatchResult.Match exSrcTrack2 1]
    0 1 0 1 exSrcTrack1 exSrcTrack2
    (by decide) (by decide) (by decide) (by decide) (by decide) (by decide)

/-- C2 counterexample: a payload declaring zero tracks and supplying none is
accepted, producing an album with an empty track list. -/
theorem try_from_empty_album_accepted :
    try_from emptyRoot = Except.ok emptyAlbum ∧ emptyAlbum.tracks = [] := by
  constructor
  · decide
  · decide

/-- C2 (amended): a successfully constructed album has exactly the declared
number of tracks, so construction with an empty track list succeeds only for
a declared `track_count` of zero and every album built from a positive
declaration has at least one track. -/
theorem try_from_track_count (root : catalog_album.Root) (a : Album TrackNoLibrary)
    (hok : try_from root = Except.ok a) :
    ∀ alb ∈ root.data, a.tracks.length = alb.attributes.track_count := by
  intro alb hmem
  obtain ⟨-, hcnt, -, -, htr⟩ := try_from_ok_inv hok alb hmem
  rw [htr, List.length_map, sortTracks,
    (List.perm_insertionSort trackLe (mkTriples alb)).length_eq, hcnt]

/-- Witness for the amended C2 at the two-disc payload. -/
theorem try_from_track_count_witness :
    twoDiscAlbum.tracks.length = twoDiscEntry.attributes.track_count :=
  try_from_track_count twoDiscRoot twoDiscAlbum (by decide) twoDiscEntry (by decide)

/-- C7: on success the album's tracks are the payload's track records,
rearranged into strictly increasing `(disc, track number)` order (hence with
no duplicate `(disc, track number)` pair), and their catalog IDs are
pairwise distinct. -/
theorem try_from_sorted_output (root : catalog_album.Root) (a : Album TrackNoLibrary)
    (hok : try_from root = Except.ok a) :
    ∀ alb ∈ root.data,
      (sortTracks (mkTriples alb)).Perm (mkTriples alb) ∧
      a.tracks = (sortTracks (mkTriples alb)).map (fun t => t.2.2) ∧
      List.Pairwise trackLt (sortTracks (mkTriples alb)) ∧
      (a.tracks.map (fun t => t.catalog_id)).Nodup := by
  intro alb hmem
  obtain ⟨-, -, hchk, hnod, htr⟩ := try_from_ok_inv hok alb hmem
  have hsort : List.Pairwise trackLe (sortTracks (mkTriples alb)) :=
    List.sorted_insertionSort trackLe (mkTriples alb)
  refine ⟨List.perm_insertionSort trackLe (mkTriples alb), htr, ?_, ?_⟩
  · exact List.chain'_iff_pairwise.mp (checkContiguous_chain hsort hchk)
  · rw [htr, List.map_map]
    exact hnod

/-- Witness for C7 at the two-disc payload. -/
theorem try_from_sorted_output_witness :
    (sortTracks (mkTriples twoDiscEntry)).Perm (mkTriples twoDiscEntry) :=
  (try_from_sorted_output twoDiscRoot twoDiscAlbum (by decide) twoDiscEntry (by decide)).1

/-- C8: album construction errors whenever the payload does not hold exactly
one album record, or the collected tracks differ in number from the declared
count, or some disc's numbers are not exactly the run `1..count` after
sorting, or two track records share a catalog ID. -/
theorem try_from_error_conditions (root : catalog_album.Root)
    (h : root.data.length ≠ 1 ∨
         (∃ alb ∈ root.data, (mkTriples alb).length ≠ alb.attributes.track_count) ∨
         (∃ alb ∈ root.data, ∃ d : Nat,
            discNums d (sortTracks (mkTriples alb)) ≠
              List.range' 1 (discNums d (sortTracks (mkTriples alb))).length) ∨
         (∃ alb ∈ root.data, ¬ ((mkTriples alb).map (fun t => t.2.2.catalog_id)).Nodup)) :
    (try_from root).isOk = false := by
  cases hres : try_from root with
  | error e => rfl
  | ok a =>
    exfalso
    rcases h with hc | ⟨alb, hmem, hc⟩ | ⟨alb, hmem, d, hc⟩ | ⟨alb, hmem, hc⟩
    · cases hdata : root.data with
      | nil =>
        have hzero : try_from root = Except.error ("expected exactly one album") := by
          unfold try_from
          rw [hdata]
        rw [hzero] at hres
        cases hres
      | cons alb rest =>
        obtain ⟨heq, -⟩ := try_from_ok_inv hres alb
          (by rw [hdata]; exact List.mem_cons_self alb rest)
        rw [heq] at hc
        exact hc rfl
    · exact hc (try_from_ok_inv hres alb hmem).2.1
    · have hsort : List.Pairwise trackLe (sortTracks (mkTriples alb)) :=
        List.sorted_insertionSort trackLe (mkTriples alb)
      exact hc (checkContiguous_discNums_top hsort (try_from_ok_inv hres alb hmem).2.2.1 d)
    · have hnod := (try_from_ok_inv hres alb hmem).2.2.2.1
      have hperm : ((sortTracks (mkTriples alb)).map (fun t => t.2.2.catalog_id)).Perm
          ((mkTriples alb).map (fun t => t.2.2.catalog_id)) :=
        (List.perm_insertionSort trackLe (mkTriples alb)).map _
      exact hc (hperm.nodup_iff.mp hnod)

/-- Witness for C8: a payload with no album record fails. -/
theorem try_from_error_conditions_witness : (try_from noAlbumRoot).isOk = false :=
  try_from_error_conditions noAlbumRoot (Or.inl (by decide))

/-- C9: a successful `with_library_info` returns the input album's tracks in
the same order, each track carrying `some` of its library ID exactly when its
catalog ID is in the response's catalog-to-library mapping, and `none`
otherwise. -/
theorem with_library_info_merges (album : Album TrackNoLibrary)
    (resp : library_album.Root) (out : Album TrackWithLibrary)
    (hok : with_library_info album resp = Except.ok out) :
    out.tracks.length = album.tracks.length ∧
    ∀ lib ∈ resp.data,
      out.tracks = album.tracks.map (fun t =>
        t.with_library_id (libraryLookup lib.relationships.tracks.data t.catalog_id)) := by
  obtain ⟨-, hlen, htr⟩ := with_library_info_ok_inv hok
  exact ⟨hlen, htr⟩

/-- Witness for C9 at the out-of-order two-track merge. -/
theorem with_library_info_merges_witness :
    mergeOut.tracks = mergeAlbum.tracks.map (fun t =>
      t.with_library_id (libraryLookup mergeLib.relationships.tracks.data t.catalog_id)) :=
  (with_library_info_merges mergeAlbum mergeResp mergeOut (by decide)).2 mergeLib (by decide)
